import Mathlib

/-!
Shallow embedding of the forward-dynamics and muscle-mechanics evaluation engine of
`src/shoulder/models/model_biorbd.py` (class `ModelBiorbd`).

Modelling conventions:
* The external rigid-body/muscle engine (biorbd) is a black box; it is represented by an
  `Engine` record of pure per-muscle/per-pose functions together with an explicit mutable
  state `EngState` (the kinematic cache, the per-muscle optimal-length parameter, and a
  trace of engine calls, so that "before any engine call" and "state unmutated" are
  expressible).
* numpy arrays are represented by `NDArr` (1-D vs 2-D, column-major access as in the
  source's `q[:, i]`), tagged with a `DType` standing for the concrete Python class
  (`np.ndarray`, `casadi.MX`, `casadi.SX`); `type(x)`/`isinstance` checks become `DType`
  comparisons.  Output arrays (`data_type((n, k))`) are `Grid`s: a fixed `rows × cols`
  frame with bounds-checked entry assignment, matching numpy's IndexError behaviour.
* Python exceptions become `Except Err`; each public operation returns the engine state
  alongside the result.  On an exception escaping a batch loop the Python engine cache
  retains whatever the loop wrote; the embedding returns the entry state alongside the
  error, and no theorem relies on the post-error cache.
* Scalars are `ℚ` (the orchestration logic proved here is arithmetic-agnostic).
-/

/-- Errors raised by the Python code: `typeMismatch` and `dimensionMismatch` are the two
`ValueError`s of the model class, `notImplemented` is `NotImplementedError`,
`indexError` is a numpy/list out-of-bounds access, `valueError` is a `ValueError`
escaping from an external collaborator (scipy). -/
inductive Err
  | typeMismatch
  | dimensionMismatch
  | notImplemented
  | indexError
  | valueError
deriving DecidableEq, Repr

/-- The concrete Python array class of a value: `np.ndarray`, `casadi.MX` or `casadi.SX`.
`type(x)` in the source becomes this tag. -/
inductive DType
  | ndarray
  | mx
  | sx
deriving DecidableEq, Repr

/-- A numpy-style numeric array: either 1-dimensional, or 2-dimensional with an explicit
column count (`cols`) and a list of rows. -/
inductive NDArr
  | one (data : List ℚ)
  | two (cols : Nat) (rows : List (List ℚ))
deriving DecidableEq, Repr

/-- A Python array value together with its concrete class tag. -/
structure PyArr where
  dtype : DType
  arr : NDArr
deriving DecidableEq, Repr

/-- A 1-D Python vector with its concrete class tag (states, controls, torque, 1-D emg). -/
structure PyVec where
  dtype : DType
  data : List ℚ
deriving DecidableEq, Repr

/-- `a.shape[1]`: errors with IndexError on a 1-D array (its shape tuple has one entry). -/
def NDArr.shape1 : NDArr → Except Err Nat
  | .one _ => .error .indexError
  | .two cols _ => .ok cols

/-- `a[:, i]`: the i-th column of a 2-D array; IndexError on a 1-D array (too many
indices) or when `i` is out of bounds. -/
def NDArr.col : NDArr → Nat → Except Err (List ℚ)
  | .one _, _ => .error .indexError
  | .two cols rows, i =>
    if i < cols then .ok (rows.map (fun r => r.getD i 0)) else .error .indexError

/-- `a[j, i]`: a single entry of a 2-D array; IndexError on a 1-D array (too many
indices) or out-of-bounds indices. -/
def NDArr.get2 : NDArr → Nat → Nat → Except Err ℚ
  | .one _, _, _ => .error .indexError
  | .two cols rows, j, i =>
    if j < rows.length ∧ i < cols then .ok ((rows.getD j []).getD i 0)
    else .error .indexError

/-- `if len(x.shape) == 1: x = x[:, np.newaxis]` — promote a 1-D vector to a one-column
matrix, leave a 2-D array untouched. -/
def NDArr.promoteIf : NDArr → NDArr
  | .one data => .two 1 (data.map (fun x => [x]))
  | .two cols rows => .two cols rows

/-- An output array `data_type((rows, cols))`: a rigid `rows × cols` frame whose entries
can be assigned with bounds checking (numpy raises IndexError out of bounds).  Entries
start at the junk value 0 (numpy leaves them uninitialized). -/
structure Grid where
  rows : Nat
  cols : Nat
  entry : Nat → Nat → ℚ

/-- Allocation `data_type((n, k))`. -/
def mkGrid (n k : Nat) : Grid := ⟨n, k, fun _ _ => 0⟩

/-- `g[j, i] = v` with numpy bounds checking. -/
def Grid.set (g : Grid) (j i : Nat) (v : ℚ) : Except Err Grid :=
  if j < g.rows ∧ i < g.cols then
    .ok { g with entry := fun a b => if a = j ∧ b = i then v else g.entry a b }
  else .error .indexError

/-- The trace of calls made into the external rigid-body/muscle engine. -/
inductive EngCall
  | updateMuscles
  | muscleLength
  | muscleVelocity
  | muscleForceCurve
  | muscularJointTorque
  | forwardDynamics
  | stateSet
  | optimalLengthGet
  | optimalLengthSet
deriving DecidableEq, Repr

/-- The engine's internal kinematic cache, written by `updateMuscles` and read by every
per-muscle query. -/
structure KinCache where
  q : List ℚ
  qdot : Option (List ℚ)

/-- The mutable state of the external engine: kinematic cache, per-muscle optimal-length
parameter, and the trace of engine calls made so far. -/
structure EngState where
  cache : Option KinCache
  optLen : Nat → ℚ
  calls : List EngCall

/-- The static (pure) part of the external rigid-body/muscle engine: dimensions and the
per-muscle geometric/force-curve evaluators, each a function of the muscle index, the
current kinematic cache and the current per-muscle optimal-length parameters.  The
engine is an external collaborator specified at its interface boundary; these fields
are its call contract. -/
structure Engine where
  n_q : Nat
  n_muscles : Nat
  lengthF : Nat → KinCache → (Nat → ℚ) → ℚ
  velocityF : Nat → KinCache → (Nat → ℚ) → ℚ
  flpeF : Nat → KinCache → (Nat → ℚ) → ℚ
  flceF : Nat → ℚ → KinCache → (Nat → ℚ) → ℚ
  fvceF : Nat → KinCache → (Nat → ℚ) → ℚ
  forceF : Nat → ℚ → KinCache → (Nat → ℚ) → ℚ
  fwdDynF : List ℚ → List ℚ → List ℚ → List ℚ
  mjtF : List ℚ → List ℚ → List ℚ

def EngState.addCalls (s : EngState) (cs : List EngCall) : EngState :=
  { s with calls := s.calls ++ cs }

/-- `self._model.updateMuscles(q[, qdot], True)`: overwrite the kinematic cache. -/
def EngState.updateMuscles (s : EngState) (q : List ℚ) (qdot : Option (List ℚ)) : EngState :=
  { s with cache := some ⟨q, qdot⟩, calls := s.calls ++ [.updateMuscles] }

def EngState.cacheD (s : EngState) : KinCache := s.cache.getD ⟨[], none⟩

/-- `self._model.muscle(j).length(self._model, q, False)`. -/
def EngState.queryLength (e : Engine) (s : EngState) (j : Nat) : EngState × ℚ :=
  (s.addCalls [.muscleLength], e.lengthF j s.cacheD s.optLen)

/-- `self._model.muscle(j).velocity(self._model, q, qdot, False)`. -/
def EngState.queryVelocity (e : Engine) (s : EngState) (j : Nat) : EngState × ℚ :=
  (s.addCalls [.muscleVelocity], e.velocityF j s.cacheD s.optLen)

/-- `mus.FlPE()` on the upcast muscle `j`. -/
def EngState.queryFlPE (e : Engine) (s : EngState) (j : Nat) : EngState × ℚ :=
  (s.addCalls [.muscleForceCurve], e.flpeF j s.cacheD s.optLen)

/-- `mus.FlCE(activation)` on the upcast muscle `j`; `activation` is the scalar of the
`State(emg[j, i], emg[j, i])` pair. -/
def EngState.queryFlCE (e : Engine) (s : EngState) (j : Nat) (a : ℚ) : EngState × ℚ :=
  (s.addCalls [.muscleForceCurve], e.flceF j a s.cacheD s.optLen)

/-- `mus.FvCE()` on the upcast muscle `j`. -/
def EngState.queryFvCE (e : Engine) (s : EngState) (j : Nat) : EngState × ℚ :=
  (s.addCalls [.muscleForceCurve], e.fvceF j s.cacheD s.optLen)

/-- `mus.force(activation)` on the upcast muscle `j`. -/
def EngState.queryForce (e : Engine) (s : EngState) (j : Nat) (a : ℚ) : EngState × ℚ :=
  (s.addCalls [.muscleForceCurve], e.forceF j a s.cacheD s.optLen)

/-- `self._model.muscle(index).characteristics().setOptimalLength(v)`. -/
def EngState.setOptimalLength (s : EngState) (index : Nat) (v : ℚ) : EngState :=
  { s with optLen := fun j => if j = index then v else s.optLen j,
           calls := s.calls ++ [.optimalLengthSet] }

/-- Modelled from the spec: the control-kind enumeration (`enums.py` is not under
`src/`).  The code handles `EMG` and `TORQUE`; the spec's error taxonomy says any other
enumeration value signals UnsupportedControlType, so `other k` stands for such an
unrecognized value. -/
inductive ControlsTypes
  | EMG
  | TORQUE
  | other (k : Nat)
deriving DecidableEq, Repr

/-- Modelled from the spec: the integration-method enumeration (`enums.py` is not under
`src/`); adaptive Runge-Kutta 4(5) and fixed-step Runge-Kutta 4, any other value
signals UnsupportedIntegrationMethod. -/
inductive IntegrationMethods
  | RK45
  | RK4
  | other (k : Nat)
deriving DecidableEq, Repr

/-- Modelled from the spec: the muscle-parameter enumeration (`enums.py` is not under
`src/`).  The spec names only optimal-fiber-length and says other parameter kinds
exist and are unimplemented on get; `other k` stands for any such other kind. -/
inductive MuscleParameter
  | OPTIMAL_LENGTH
  | other (k : Nat)
deriving DecidableEq, Repr

/-- Modelled from the spec: the muscle-index selection argument — an int selecting one
muscle, or a range/slice of indices (`helpers.py` is not under `src/`). -/
inductive MuscleIndexSel
  | int (i : Nat)
  | rng (start stop : Nat)
deriving DecidableEq, Repr

/-- Modelled from the spec: `parse_muscle_index` (`helpers.py` is not under `src/`) —
normalizes the muscle-index selection to a slice `(start, stop)`, the default being all
muscles `0..n_muscles`; an int selects the single muscle `i..i+1`, a range/slice passes
through. -/
def parse_muscle_index : Option MuscleIndexSel → Nat → Nat × Nat
  | none, nMus => (0, nMus)
  | some (.int i), _ => (i, i + 1)
  | some (.rng a b), _ => (a, b)

/-- Python `slice(start, stop).indices(len)` for nonnegative bounds and step 1: clip
both bounds to `len`. -/
def sliceIndices (start stop len : Nat) : Nat × Nat := (min start len, min stop len)

/-- `list(range(start, stop))`. -/
def rangeList (start stop : Nat) : List Nat := List.range' start (stop - start)

/-- Modelled from the spec: `concatenate` (`helpers.py` is not under `src/`) — state
vectors are the concatenation of pose and velocity. -/
def concatenate (a b : List ℚ) : List ℚ := a ++ b

/-- The inner per-muscle loop body of `muscles_kinematics` (source lines 57–60): the
source iterates `j` over `range(self._model.nbMuscleTotal())` — all muscles — writing
`lengths[j, i]` (and `velocities[j, i]`). -/
def kinBodyJ (e : Engine) (hasQdot : Bool) (i : Nat)
    (acc : EngState × Grid × Grid) (j : Nat) : Except Err (EngState × Grid × Grid) :=
  let (s, lens, vels) := acc
  let (s, lv) := s.queryLength e j
  match lens.set j i lv with
  | .error err => .error err
  | .ok lens =>
    if hasQdot then
      let (s, vv) := s.queryVelocity e j
      match vels.set j i vv with
      | .error err => .error err
      | .ok vels => .ok (s, lens, vels)
    else .ok (s, lens, vels)

/-- The outer per-sample loop body of `muscles_kinematics` (source lines 51–60): push
column `i` of `q` (and `qdot`) into the kinematic cache, then run the per-muscle loop
over all `nbMuscleTotal()` muscles. -/
def kinBodyI (e : Engine) (q : NDArr) (qdot : Option NDArr)
    (acc : EngState × Grid × Grid) (i : Nat) : Except Err (EngState × Grid × Grid) :=
  let (s, lens, vels) := acc
  match q.col i with
  | .error err => .error err
  | .ok qi =>
    match qdot with
    | none =>
      (List.range e.n_muscles).foldlM (kinBodyJ e false i)
        (s.updateMuscles qi none, lens, vels)
    | some qd =>
      match qd.col i with
      | .error err => .error err
      | .ok qdi =>
        (List.range e.n_muscles).foldlM (kinBodyJ e true i)
          (s.updateMuscles qi (some qdi), lens, vels)

/-- `ModelBiorbd.muscles_kinematics` (source lines 37–65): type check, muscle-index
parsing, allocation of `(n_muscles_selected, q.shape[1])` output arrays, then the batch
loop.  No 1-D promotion is performed: `q.shape[1]` on a 1-D array raises IndexError. -/
def muscles_kinematics (e : Engine) (s : EngState) (q : PyArr) (qdot : Option PyArr)
    (muscle_index : Option MuscleIndexSel) :
    EngState × Except Err (Grid × Option Grid) :=
  if (match qdot with
      | some v => decide (v.dtype ≠ q.dtype)
      | none => false) then
    (s, .error .typeMismatch)
  else
    let mi := parse_muscle_index muscle_index e.n_muscles
    let nMus := mi.2 - mi.1
    match q.arr.shape1 with
    | .error err => (s, .error err)
    | .ok k =>
      match (List.range k).foldlM (kinBodyI e q.arr (qdot.map (·.arr)))
          (s, mkGrid nMus k, mkGrid nMus k) with
      | .error err => (s, .error err)
      | .ok (s', lens, vels) =>
        (s', .ok (lens, match qdot with | none => none | some _ => some vels))

/-- The inner per-muscle loop body of `muscle_force_coefficients` (source lines
95–101): the source iterates `j` over `range(muscle_index.start, muscle_index.stop)`
and writes `out_flpe[j, i]`, `out_flce[j, i]`, `out_fvce[j, i]` at the absolute muscle
index `j`, reading the activation from `emg[j, i]`. -/
def coefBodyJ (e : Engine) (hasQdot : Bool) (emg : NDArr) (i : Nat)
    (acc : EngState × Grid × Grid × Grid) (j : Nat) :
    Except Err (EngState × Grid × Grid × Grid) :=
  let (s, flpe, flce, fvce) := acc
  match emg.get2 j i with
  | .error err => .error err
  | .ok a =>
    let (s, pev) := s.queryFlPE e j
    match flpe.set j i pev with
    | .error err => .error err
    | .ok flpe =>
      let (s, cev) := s.queryFlCE e j a
      match flce.set j i cev with
      | .error err => .error err
      | .ok flce =>
        if hasQdot then
          let (s, fvv) := s.queryFvCE e j
          match fvce.set j i fvv with
          | .error err => .error err
          | .ok fvce => .ok (s, flpe, flce, fvce)
        else .ok (s, flpe, flce, fvce)

/-- The outer per-sample loop body of `muscle_force_coefficients` (source lines
89–101). -/
def coefBodyI (e : Engine) (q : NDArr) (qdot : Option NDArr) (emg : NDArr)
    (mi : Nat × Nat) (acc : EngState × Grid × Grid × Grid) (i : Nat) :
    Except Err (EngState × Grid × Grid × Grid) :=
  let (s, flpe, flce, fvce) := acc
  match q.col i with
  | .error err => .error err
  | .ok qi =>
    match qdot with
    | none =>
      (rangeList mi.1 mi.2).foldlM (coefBodyJ e false emg i)
        (s.updateMuscles qi none, flpe, flce, fvce)
    | some qd =>
      match qd.col i with
      | .error err => .error err
      | .ok qdi =>
        (rangeList mi.1 mi.2).foldlM (coefBodyJ e true emg i)
          (s.updateMuscles qi (some qdi), flpe, flce, fvce)

/-- `ModelBiorbd.muscle_force_coefficients` (source lines 67–106): type check on
`emg`/`q`/`qdot`, muscle-index parsing, 1-D→one-column promotion of `q` and `qdot`
(`emg` is not promoted), allocation of `(n_muscles_selected, q.shape[1])` output
arrays, then the batch loop over the selected index range. -/
def muscle_force_coefficients (e : Engine) (s : EngState) (emg q : PyArr)
    (qdot : Option PyArr) (muscle_index : Option MuscleIndexSel) :
    EngState × Except Err (Grid × Grid × Option Grid) :=
  if (decide (q.dtype ≠ emg.dtype) ||
      (match qdot with
       | some v => decide (v.dtype ≠ emg.dtype)
       | none => false)) then
    (s, .error .typeMismatch)
  else
    let mi := parse_muscle_index muscle_index e.n_muscles
    let q' := q.arr.promoteIf
    let qdot' := qdot.map (fun v => v.arr.promoteIf)
    let nMus := mi.2 - mi.1
    match q'.shape1 with
    | .error err => (s, .error err)
    | .ok k =>
      match (List.range k).foldlM (coefBodyI e q' qdot' emg.arr mi)
          (s, mkGrid nMus k, mkGrid nMus k, mkGrid nMus k) with
      | .error err => (s, .error err)
      | .ok (s', flpe, flce, fvce) =>
        (s', .ok (flpe, flce, match qdot with | none => none | some _ => some fvce))

/-- The inner per-muscle loop body of `muscle_force` (source lines 137–145): `j` runs
over `range(n_muscles)` (the sub-range length) and the queried muscle is
`muscle_index[j]`, the `j`-th entry of the clipped index list (a list access that
raises IndexError when the clipped list is shorter than `n_muscles`); the casadi
`to_mx()`/`casadi.Function` materialization steps are value-preserving and are modelled
as the identity. -/
def forceBodyJ (e : Engine) (emg : NDArr) (idx : List Nat) (i : Nat)
    (acc : EngState × Grid) (j : Nat) : Except Err (EngState × Grid) :=
  let (s, out) := acc
  match idx.get? j with
  | none => .error .indexError
  | some mj =>
    match emg.get2 j i with
    | .error err => .error err
    | .ok a =>
      let (s, fv) := s.queryForce e mj a
      match out.set j i fv with
      | .error err => .error err
      | .ok out => .ok (s, out)

/-- The outer per-sample loop body of `muscle_force` (source lines 131–145). -/
def forceBodyI (e : Engine) (q qdot : NDArr) (emg : NDArr) (idx : List Nat)
    (nMus : Nat) (acc : EngState × Grid) (i : Nat) : Except Err (EngState × Grid) :=
  let (s, out) := acc
  match q.col i with
  | .error err => .error err
  | .ok qi =>
    match qdot.col i with
    | .error err => .error err
    | .ok qdi =>
      (List.range nMus).foldlM (forceBodyJ e emg idx i)
        (s.updateMuscles qi (some qdi), out)

/-- `ModelBiorbd.muscle_force` (source lines 108–147): type check, 1-D→one-column
promotion of `emg`, `q` and `qdot`, muscle-index parsing, then
`muscle_index = list(range(*muscle_index.indices(n_muscles)))` — the slice is clipped
by the SUB-RANGE length `n_muscles`, not by the total muscle count — allocation of the
`(n_muscles, q.shape[1])` output array, and the batch loop. -/
def muscle_force (e : Engine) (s : EngState) (emg q qdot : PyArr)
    (muscle_index : Option MuscleIndexSel) : EngState × Except Err Grid :=
  if (decide (q.dtype ≠ emg.dtype) || decide (qdot.dtype ≠ emg.dtype)) then
    (s, .error .typeMismatch)
  else
    let emg' := emg.arr.promoteIf
    let mi := parse_muscle_index muscle_index e.n_muscles
    let q' := q.arr.promoteIf
    let qdot' := qdot.arr.promoteIf
    let nMus := mi.2 - mi.1
    let clipped := sliceIndices mi.1 mi.2 nMus
    let idx := rangeList clipped.1 clipped.2
    match q'.shape1 with
    | .error err => (s, .error err)
    | .ok k =>
      match (List.range k).foldlM (forceBodyI e q' qdot' emg' idx nMus)
          (s, mkGrid nMus k) with
      | .error err => (s, .error err)
      | .ok (s', out) => (s', .ok out)

/-- `ModelBiorbd.set_muscle_parameters` (source lines 149–150): write the optimal
fiber length of muscle `index`; no recognized-parameter guard on the set path. -/
def set_muscle_parameters (s : EngState) (index : Nat) (optimal_length : ℚ) : EngState :=
  s.setOptimalLength index optimal_length

/-- `ModelBiorbd.get_muscle_parameter` (source lines 152–156): return the muscle's
current optimal length for `OPTIMAL_LENGTH`, raise `NotImplementedError` for any other
parameter kind. -/
def get_muscle_parameter (s : EngState) (index : Nat) (parameter_to_get : MuscleParameter) :
    EngState × Except Err ℚ :=
  match parameter_to_get with
  | .OPTIMAL_LENGTH => (s.addCalls [.optimalLengthGet], .ok (s.optLen index))
  | .other _ => (s, .error .notImplemented)

/-- `ModelBiorbd._forward_dynamics` (source lines 239–245) as a pure vector field:
split the state into pose and velocity, ask the engine for the acceleration, return
`concatenate(qdot, qddot)`.  The `t` argument is accepted and unused, as in the
source. -/
def fdynTau (e : Engine) (tau : List ℚ) (_t : ℚ) (x : List ℚ) : List ℚ :=
  let q := x.take e.n_q
  let qdot := x.drop e.n_q
  let qddot := e.fwdDynF q qdot tau
  concatenate qdot qddot

/-- `ModelBiorbd._forward_dynamics_muscles` (source lines 228–237) as a pure vector
field: derive the joint torque from the engine's muscular joint torque at the default
muscle state set — the activation-setting loop over `emg` is commented out in the
source, so `emg` is accepted and unused — then proceed as the torque branch. -/
def fdynEmg (e : Engine) (emg : List ℚ) (t : ℚ) (x : List ℚ) : List ℚ :=
  let q := x.take e.n_q
  let qdot := x.drop e.n_q
  let tau := e.mjtF q qdot
  fdynTau e tau t x

/-- `ModelBiorbd.forward_dynamics` (source lines 199–226): type check on `q`, `qdot`
and `controls`, then dispatch on the control kind with a leading-dimension check before
the dynamics function is built or any engine call is made; the successful result is the
derivative split back into its pose part and velocity part. -/
def forward_dynamics (e : Engine) (s : EngState) (q qdot controls : PyVec)
    (controls_type : ControlsTypes) : EngState × Except Err (List ℚ × List ℚ) :=
  if (decide (qdot.dtype ≠ q.dtype) || decide (controls.dtype ≠ q.dtype)) then
    (s, .error .typeMismatch)
  else
    match controls_type with
    | .EMG =>
      if controls.data.length ≠ e.n_muscles then (s, .error .dimensionMismatch)
      else
        let res := fdynEmg e controls.data 0 (concatenate q.data qdot.data)
        (s.addCalls [.stateSet, .muscularJointTorque, .forwardDynamics],
         .ok (res.take e.n_q, res.drop e.n_q))
    | .TORQUE =>
      if controls.data.length ≠ e.n_q then (s, .error .dimensionMismatch)
      else
        let res := fdynTau e controls.data 0 (concatenate q.data qdot.data)
        (s.addCalls [.forwardDynamics], .ok (res.take e.n_q, res.drop e.n_q))
    | .other _ => (s, .error .notImplemented)

/-- The type of an ODE initial-value-problem solver as consumed by `integrate`:
dynamics function, `t_span`, initial state, method string, `t_eval`, and the engine
state threaded through the dynamics evaluations; a success returns the final engine
state and the solution matrix `y` (one column per entry of `t_eval`). -/
def Solver : Type :=
  (ℚ → List ℚ → List ℚ) → (ℚ × ℚ) → List ℚ → String → List ℚ → EngState →
    Except Err (EngState × Grid)

/-- Modelled from the SciPy documentation (scipy is an external collaborator specified
at its interface boundary): `scipy.integrate.solve_ivp` accepts only these method
strings. -/
def scipyMethods : List String := ["RK45", "RK23", "DOP853", "Radau", "BDF", "LSODA"]

/-- Modelled from the SciPy documentation: `solve_ivp` validates its `method` argument
against the supported method strings and raises `ValueError` for any other string; the
numerical kernel itself is left abstract. -/
def scipySolveIvp (kernel : Solver) : Solver :=
  fun f span y0 method t_eval s =>
    if scipyMethods.contains method then kernel f span y0 method t_eval s
    else .error .valueError

/-- `t_span = (t[0], t[-1])` (source line 192): IndexError on an empty time vector. -/
def tspanOf : List ℚ → Except Err (ℚ × ℚ)
  | [] => .error .indexError
  | a :: t' => .ok (a, t'.getLastD a)

/-- `results.y[: self.n_q, :]` — the first `n` rows of the solution matrix. -/
def rowTake (n : Nat) (y : Grid) : Grid := ⟨min n y.rows, y.cols, y.entry⟩

/-- `results.y[self.n_q :, :]` — the rows of the solution matrix from `n` on. -/
def rowDrop (n : Nat) (y : Grid) : Grid :=
  ⟨y.rows - n, y.cols, fun r c => y.entry (n + r) c⟩

/-- `ModelBiorbd.integrate` (source lines 158–197): type check on states/controls,
dispatch on the control kind with a leading-dimension check (building the dynamics
function bound to the given control), method-string selection, then
`solve_ivp(fun=func, t_span=(t[0], t[-1]), y0=states, method=method, t_eval=t)` and
the row split of the solution into the pose and velocity trajectories. -/
def integrate (e : Engine) (solver : Solver) (s : EngState) (t : List ℚ)
    (states controls : PyVec) (controls_type : ControlsTypes)
    (integration_method : IntegrationMethods) :
    EngState × Except Err (Grid × Grid) :=
  if decide (controls.dtype ≠ states.dtype) then (s, .error .typeMismatch)
  else
    match (match controls_type with
           | .EMG =>
             if controls.data.length ≠ e.n_muscles then
               Except.error Err.dimensionMismatch
             else .ok (fdynEmg e controls.data)
           | .TORQUE =>
             if controls.data.length ≠ e.n_q then
               Except.error Err.dimensionMismatch
             else .ok (fdynTau e controls.data)
           | .other _ => Except.error Err.notImplemented) with
    | .error err => (s, .error err)
    | .ok func =>
      match (match integration_method with
             | .RK45 => Except.ok "RK45"
             | .RK4 => Except.ok "RK4"
             | .other _ => Except.error Err.notImplemented) with
      | .error err => (s, .error err)
      | .ok method =>
        match tspanOf t with
        | .error err => (s, .error err)
        | .ok span =>
          match solver func span states.data method t s with
          | .error err => (s, .error err)
          | .ok (s', y) => (s', .ok (rowTake e.n_q y, rowDrop e.n_q y))

/-- A concrete engine instance used to exercise the theorems: one degree of freedom,
five muscles, with nontrivial (pose-, parameter- and activation-dependent) muscle
evaluators. -/
def toyEngine : Engine where
  n_q := 1
  n_muscles := 5
  lengthF := fun j c _ => (j : ℚ) + c.q.headD 0
  velocityF := fun j c _ => (j : ℚ) - (c.qdot.getD []).headD 0
  flpeF := fun j c p => p j + c.q.headD 0
  flceF := fun j a c _ => a + (j : ℚ) + c.q.headD 0
  fvceF := fun j c _ => (j : ℚ) + (c.qdot.getD []).headD 0
  forceF := fun j a c p => a * p j + (j : ℚ) + c.q.headD 0
  fwdDynF := fun q qdot tau => tau.map (fun v => v + q.headD 0 + qdot.headD 0)
  mjtF := fun q qdot => q.map (fun v => v + qdot.headD 0)

/-- A concrete engine with no muscles, for exercising shape facts on trivially
successful batch runs. -/
def zeroMuscleEngine : Engine where
  n_q := 1
  n_muscles := 0
  lengthF := fun _ _ _ => 0
  velocityF := fun _ _ _ => 0
  flpeF := fun _ _ _ => 0
  flceF := fun _ _ _ _ => 0
  fvceF := fun _ _ _ => 0
  forceF := fun _ _ _ _ => 0
  fwdDynF := fun _ _ tau => tau
  mjtF := fun q _ => q

/-- A fresh engine state: empty kinematic cache, unit optimal lengths, empty trace. -/
def s0 : EngState where
  cache := none
  optLen := fun _ => 1
  calls := []

/-- An all-zero excitation vector of the five muscles of `toyEngine`. -/
def emgA : PyVec := ⟨.ndarray, [0, 0, 0, 0, 0]⟩

/-- A second, different excitation vector of the five muscles of `toyEngine`. -/
def emgB : PyVec := ⟨.ndarray, [1, 2, 3, 4, 5]⟩

/-- A concrete one-entry pose vector. -/
def qV : PyVec := ⟨.ndarray, [1]⟩

/-- A concrete one-entry velocity vector. -/
def qdV : PyVec := ⟨.ndarray, [2]⟩

/-- A torque control vector of the wrong length (2 instead of `n_q = 1`). -/
def badTorque : PyVec := ⟨.ndarray, [3, 4]⟩

/-- A one-column pose batch (`n_q = 1` row, one sample). -/
def q21 : PyArr := ⟨.ndarray, .two 1 [[0]]⟩

/-- A one-column excitation batch for the five muscles of `toyEngine`. -/
def emg51 : PyArr := ⟨.ndarray, .two 1 [[0], [0], [0], [0], [0]]⟩

/-- The sub-range muscle selection "muscles 1..3" of the claims' example. -/
def mi13 : Option MuscleIndexSel := some (.rng 1 3)

/-- A concrete initial state vector (pose 1, velocity 2) for `toyEngine`. -/
def statesV : PyVec := ⟨.ndarray, [1, 2]⟩

/-- A concrete zero torque control for `toyEngine`. -/
def ctrlV : PyVec := ⟨.ndarray, [0]⟩

/-- A trivial concrete IVP solver satisfying the documented solve_ivp output contract:
the solution matrix has one column per requested sample and carries the initial state
in every column. -/
def trivSolver : Solver := fun _f _span y0 _method t_eval s =>
  .ok (s, { rows := y0.length, cols := t_eval.length, entry := fun r _ => y0.getD r 0 })

/-- The solution matrix `trivSolver` returns for `statesV` on two time samples. -/
def yW : Grid := ⟨2, 2, fun r _ => List.getD [(1 : ℚ), 2] r 0⟩

/-- C1: the claim that for every batch of K pose columns and every sub-range
muscle_index (e.g., muscles 1..3 of 5), `muscles_kinematics`, `muscle_force_coefficients`
and `muscle_force` return output arrays sized (length of the sub-range, K) whose entries
match the full-range computation restricted to the selected indices, FAILS on the code:
at the claim's own example (muscles 1..3 of 5, K = 1) all three functions raise
IndexError — `muscles_kinematics` loops over all 5 muscles writing into the 2-row
output, `muscle_force_coefficients` writes rows at the absolute indices 1 and 2 of the
2-row output, and `muscle_force` clips the slice by the sub-range length 2, producing
the index list [1] and then reading its out-of-range element 1. -/
theorem C1_subrange_index_error :
    muscles_kinematics toyEngine s0 q21 none mi13 = (s0, .error .indexError) ∧
    muscle_force_coefficients toyEngine s0 emg51 q21 none mi13 = (s0, .error .indexError) ∧
    muscle_force toyEngine s0 emg51 q21 q21 mi13 = (s0, .error .indexError) :=
  ⟨rfl, rfl, rfl⟩

/-- C2: for every state (pose, velocity) and any two excitation vectors of length
n_muscles, `forward_dynamics` with muscle-excitation control returns the same
derivative: the excitation is accepted at the interface but does not influence the
computed torque or acceleration (the activation-setting loop is commented out in the
source). -/
theorem C2_emg_noninterference (e : Engine) (s : EngState) (q qdot e1 e2 : PyVec)
    (h1 : qdot.dtype = q.dtype) (h2 : e1.dtype = q.dtype) (h3 : e2.dtype = q.dtype)
    (h4 : e1.data.length = e.n_muscles) (h5 : e2.data.length = e.n_muscles) :
    forward_dynamics e s q qdot e1 .EMG = forward_dynamics e s q qdot e2 .EMG := by
  simp [forward_dynamics, h1, h2, h3, h4, h5, fdynEmg, fdynTau]

/-- C2 witness: two concretely different excitation vectors over `toyEngine` produce
the same forward-dynamics result. -/
theorem C2_witness :
    forward_dynamics toyEngine s0 qV qdV emgA .EMG
      = forward_dynamics toyEngine s0 qV qdV emgB .EMG :=
  C2_emg_noninterference toyEngine s0 qV qdV emgA emgB rfl rfl rfl rfl rfl

/-- C4: a control vector whose length does not match the expected dimension for its
declared kind (n_q for torque, n_muscles for excitation) makes `forward_dynamics`
return a dimension-mismatch error with the engine state — kinematic cache, parameters
and call trace — completely untouched (so before any engine call); an unrecognized
control kind yields the unsupported-control-type (`NotImplementedError`) error, also
with untouched state. -/
theorem C4_control_dimension_checks (e : Engine) (s : EngState) (q qdot controls : PyVec)
    (h1 : qdot.dtype = q.dtype) (h2 : controls.dtype = q.dtype) :
    (controls.data.length ≠ e.n_q →
      forward_dynamics e s q qdot controls .TORQUE = (s, .error .dimensionMismatch)) ∧
    (controls.data.length ≠ e.n_muscles →
      forward_dynamics e s q qdot controls .EMG = (s, .error .dimensionMismatch)) ∧
    (∀ k, forward_dynamics e s q qdot controls (.other k) = (s, .error .notImplemented)) := by
  refine ⟨fun h => ?_, fun h => ?_, fun k => ?_⟩
  · simp [forward_dynamics, h1, h2, h]
  · simp [forward_dynamics, h1, h2, h]
  · simp [forward_dynamics, h1, h2]

/-- C4 witness: a length-2 torque for the 1-dof `toyEngine` is rejected with the state
returned untouched, and so is a length-2 excitation for its 5 muscles. -/
theorem C4_witness :
    forward_dynamics toyEngine s0 qV qdV badTorque .TORQUE
      = (s0, .error .dimensionMismatch) ∧
    forward_dynamics toyEngine s0 qV qdV badTorque .EMG
      = (s0, .error .dimensionMismatch) ∧
    forward_dynamics toyEngine s0 qV qdV badTorque (.other 7)
      = (s0, .error .notImplemented) :=
  ⟨(C4_control_dimension_checks toyEngine s0 qV qdV badTorque rfl rfl).1 (by decide),
   (C4_control_dimension_checks toyEngine s0 qV qdV badTorque rfl rfl).2.1 (by decide),
   (C4_control_dimension_checks toyEngine s0 qV qdV badTorque rfl rfl).2.2 7⟩

/-- C5: the claim that both integration methods succeed and agree FAILS on the code:
the fixed-step branch maps `IntegrationMethods.RK4` to the method string "RK4", which
scipy's `solve_ivp` does not accept (its methods are RK45/RK23/DOP853/Radau/BDF/LSODA),
so for EVERY numerical kernel the RK4 path raises ValueError before any integration
step, while the RK45 path reaches the solver and succeeds. -/
theorem C5_rk4_always_rejected :
    (∀ kernel : Solver,
      integrate toyEngine (scipySolveIvp kernel) s0 [0, 1] statesV ctrlV .TORQUE .RK4
        = (s0, .error .valueError)) ∧
    integrate toyEngine (scipySolveIvp trivSolver) s0 [0, 1] statesV ctrlV .TORQUE .RK45
      = (s0, .ok (rowTake 1 yW, rowDrop 1 yW)) :=
  ⟨fun _ => rfl, rfl⟩

/-- C6: mixed concrete representations (e.g. a plain numeric pose with a symbolic
velocity, or excitations of a different class than the poses) make
`muscles_kinematics` and `muscle_force_coefficients` return the type-mismatch error
with the engine state — including its call trace — untouched, hence before any engine
call or computation. -/
theorem C6_representation_mismatch (e : Engine) (s : EngState) (q qd emg : PyArr)
    (mi : Option MuscleIndexSel) :
    (qd.dtype ≠ q.dtype →
      muscles_kinematics e s q (some qd) mi = (s, .error .typeMismatch)) ∧
    (q.dtype ≠ emg.dtype →
      muscle_force_coefficients e s emg q (some qd) mi = (s, .error .typeMismatch)) ∧
    (qd.dtype ≠ emg.dtype →
      muscle_force_coefficients e s emg q (some qd) mi = (s, .error .typeMismatch)) := by
  refine ⟨fun h => ?_, fun h => ?_, fun h => ?_⟩ <;>
    simp [muscles_kinematics, muscle_force_coefficients, h]

/-- C6 witness: a numeric pose batch with a symbolic velocity batch (and a symbolic
velocity against numeric excitations) is rejected with the state untouched. -/
theorem C6_witness :
    muscles_kinematics toyEngine s0 q21 (some ⟨.mx, .two 1 [[0]]⟩) none
      = (s0, .error .typeMismatch) ∧
    muscle_force_coefficients toyEngine s0 emg51 ⟨.sx, .two 1 [[0]]⟩
      (some ⟨.sx, .two 1 [[0]]⟩) none = (s0, .error .typeMismatch) ∧
    muscle_force_coefficients toyEngine s0 emg51 q21 (some ⟨.mx, .two 1 [[0]]⟩) none
      = (s0, .error .typeMismatch) :=
  ⟨(C6_representation_mismatch toyEngine s0 q21 ⟨.mx, .two 1 [[0]]⟩ emg51 none).1
      (by decide),
   (C6_representation_mismatch toyEngine s0 ⟨.sx, .two 1 [[0]]⟩ ⟨.sx, .two 1 [[0]]⟩
      emg51 none).2.1 (by decide),
   (C6_representation_mismatch toyEngine s0 q21 ⟨.mx, .two 1 [[0]]⟩ emg51 none).2.2
      (by decide)⟩

/-- C7: `get_muscle_parameter` with any parameter kind other than optimal-fiber-length
returns the `NotImplementedError` with the engine state (including that muscle's
parameters) completely unchanged; for optimal-fiber-length it returns the muscle's
current optimal length. -/
theorem C7_get_parameter (s : EngState) (index : Nat) :
    (∀ k, get_muscle_parameter s index (.other k) = (s, .error .notImplemented)) ∧
    get_muscle_parameter s index .OPTIMAL_LENGTH
      = (s.addCalls [.optimalLengthGet], .ok (s.optLen index)) :=
  ⟨fun _ => rfl, rfl⟩

/-- C8: after `set_muscle_parameters(index, v)`, `get_muscle_parameter(index,
OPTIMAL_LENGTH)` returns `v`, immediately and also after further kinematic-cache
updates — the mutation takes effect at once and persists for subsequent queries. -/
theorem C8_set_get_roundtrip (s : EngState) (index : Nat) (v : ℚ) :
    (get_muscle_parameter (set_muscle_parameters s index v) index .OPTIMAL_LENGTH).2
      = .ok v ∧
    (∀ q qd, (get_muscle_parameter
        ((set_muscle_parameters s index v).updateMuscles q qd) index
        .OPTIMAL_LENGTH).2 = .ok v) := by
  constructor <;>
    simp [get_muscle_parameter, set_muscle_parameters, EngState.setOptimalLength,
      EngState.updateMuscles]

/-- C10: an initial state and a control vector of different concrete representations
make `integrate` return the type-mismatch error with the engine state untouched — in
particular before the dynamics function is constructed and before any engine call. -/
theorem C10_integrate_type_mismatch (e : Engine) (solver : Solver) (s : EngState)
    (t : List ℚ) (states controls : PyVec) (ct : ControlsTypes)
    (im : IntegrationMethods) (h : controls.dtype ≠ states.dtype) :
    integrate e solver s t states controls ct im = (s, .error .typeMismatch) := by
  simp [integrate, h]

/-- C10 witness: a numeric initial state with a symbolic control is rejected by
`integrate` with the state untouched. -/
theorem C10_witness :
    integrate toyEngine trivSolver s0 [0, 1] statesV ⟨.mx, [0]⟩ .TORQUE .RK45
      = (s0, .error .typeMismatch) :=
  C10_integrate_type_mismatch toyEngine trivSolver s0 [0, 1] statesV ⟨.mx, [0]⟩
    .TORQUE .RK45 (by decide)

/-- Bind on `Except` applied to a success reduces to the continuation. -/
theorem exceptBindOk {α β : Type} (a : α) (f : α → Except Err β) :
    (Except.ok a >>= f) = f a := rfl

/-- Bind on `Except` applied to an error is that error. -/
theorem exceptBindErr {α β : Type} (err : Err) (f : α → Except Err β) :
    ((Except.error err : Except Err α) >>= f) = .error err := rfl

/-- A step function that preserves a projection `G` on success makes `foldlM` over
`Except` preserve it. -/
theorem foldlM_except_pres {σ α β : Type} (G : σ → β) (f : σ → α → Except Err σ)
    (hf : ∀ s a s', f s a = .ok s' → G s' = G s) :
    ∀ (l : List α) (s s' : σ), l.foldlM f s = .ok s' → G s' = G s := by
  intro l
  induction l with
  | nil =>
    intro s s' h
    simp only [List.foldlM_nil] at h
    cases h
    rfl
  | cons a t ih =>
    intro s s' h
    simp only [List.foldlM_cons] at h
    cases hfa : f s a with
    | error err => rw [hfa, exceptBindErr] at h; cases h
    | ok s2 =>
      rw [hfa, exceptBindOk] at h
      exact (ih s2 s' h).trans (hf s a s2 hfa)

/-- A successful bounds-checked entry assignment never changes the array's frame. -/
theorem Grid.set_dims {g g' : Grid} {j i : Nat} {v : ℚ} (h : g.set j i v = .ok g') :
    g'.rows = g.rows ∧ g'.cols = g.cols := by
  unfold Grid.set at h
  split at h
  · cases h; exact ⟨rfl, rfl⟩
  · cases h

/-- One successful step of the inner `muscle_force_coefficients` loop keeps the frames
of all three output arrays. -/
theorem coefBodyJ_dims {e : Engine} {b : Bool} {emg : NDArr} {i j : Nat}
    {acc acc' : EngState × Grid × Grid × Grid}
    (h : coefBodyJ e b emg i acc j = .ok acc') :
    (acc'.2.1.rows, acc'.2.1.cols, acc'.2.2.1.rows, acc'.2.2.1.cols,
      acc'.2.2.2.rows, acc'.2.2.2.cols)
    = (acc.2.1.rows, acc.2.1.cols, acc.2.2.1.rows, acc.2.2.1.cols,
      acc.2.2.2.rows, acc.2.2.2.cols) := by
  obtain ⟨s, g1, g2, g3⟩ := acc
  simp only [coefBodyJ, EngState.queryFlPE, EngState.queryFlCE, EngState.queryFvCE] at h
  split at h
  · cases h
  next a hget =>
    split at h
    · cases h
    next g1' hset1 =>
      split at h
      · cases h
      next g2' hset2 =>
        split at h
        · split at h
          · cases h
          next g3' hset3 =>
            cases h
            simp [(Grid.set_dims hset1).1, (Grid.set_dims hset1).2,
              (Grid.set_dims hset2).1, (Grid.set_dims hset2).2,
              (Grid.set_dims hset3).1, (Grid.set_dims hset3).2]
        · cases h
          simp [(Grid.set_dims hset1).1, (Grid.set_dims hset1).2,
            (Grid.set_dims hset2).1, (Grid.set_dims hset2).2]

/-- One successful step of the outer `muscle_force_coefficients` loop keeps the frames
of all three output arrays. -/
theorem coefBodyI_dims {e : Engine} {q : NDArr} {qdot : Option NDArr} {emg : NDArr}
    {mi : Nat × Nat} {i : Nat} {acc acc' : EngState × Grid × Grid × Grid}
    (h : coefBodyI e q qdot emg mi acc i = .ok acc') :
    (acc'.2.1.rows, acc'.2.1.cols, acc'.2.2.1.rows, acc'.2.2.1.cols,
      acc'.2.2.2.rows, acc'.2.2.2.cols)
    = (acc.2.1.rows, acc.2.1.cols, acc.2.2.1.rows, acc.2.2.1.cols,
      acc.2.2.2.rows, acc.2.2.2.cols) := by
  obtain ⟨s, g1, g2, g3⟩ := acc
  simp only [coefBodyI] at h
  split at h
  · cases h
  next qi hqi =>
    split at h
    · exact foldlM_except_pres
        (fun x => (x.2.1.rows, x.2.1.cols, x.2.2.1.rows, x.2.2.1.cols,
          x.2.2.2.rows, x.2.2.2.cols))
        _ (fun _ _ _ hs => coefBodyJ_dims hs) _ _ _ h
    next qd =>
      split at h
      · cases h
      next qdi hqdi =>
        exact foldlM_except_pres
          (fun x => (x.2.1.rows, x.2.1.cols, x.2.2.1.rows, x.2.2.1.cols,
            x.2.2.2.rows, x.2.2.2.cols))
          _ (fun _ _ _ hs => coefBodyJ_dims hs) _ _ _ h

/-- One successful step of the inner `muscle_force` loop keeps the output frame. -/
theorem forceBodyJ_dims {e : Engine} {emg : NDArr} {idx : List Nat} {i j : Nat}
    {acc acc' : EngState × Grid} (h : forceBodyJ e emg idx i acc j = .ok acc') :
    (acc'.2.rows, acc'.2.cols) = (acc.2.rows, acc.2.cols) := by
  obtain ⟨s, out⟩ := acc
  simp only [forceBodyJ, EngState.queryForce] at h
  split at h
  · cases h
  next mj hmj =>
    split at h
    · cases h
    next a ha =>
      split at h
      · cases h
      next out' hset =>
        cases h
        simp [(Grid.set_dims hset).1, (Grid.set_dims hset).2]

/-- One successful step of the outer `muscle_force` loop keeps the output frame. -/
theorem forceBodyI_dims {e : Engine} {q qdot emg : NDArr} {idx : List Nat}
    {nMus i : Nat} {acc acc' : EngState × Grid}
    (h : forceBodyI e q qdot emg idx nMus acc i = .ok acc') :
    (acc'.2.rows, acc'.2.cols) = (acc.2.rows, acc.2.cols) := by
  obtain ⟨s, out⟩ := acc
  simp only [forceBodyI] at h
  split at h
  · cases h
  next qi hqi =>
    split at h
    · cases h
    next qdi hqdi =>
      exact foldlM_except_pres (fun x => (x.2.rows, x.2.cols))
        _ (fun _ _ _ hs => forceBodyJ_dims hs) _ _ _ h

/-- C9: a 1-dimensional pose vector (and 1-dimensional velocity, and for `muscle_force`
also a 1-dimensional excitation vector) is treated by `muscle_force_coefficients` and
`muscle_force` as a single-sample batch — computing exactly what the same call computes
on the corresponding one-column matrices, with output arrays of exactly one column —
whereas `muscles_kinematics` performs no such promotion and rejects 1-dimensional pose
input with an IndexError (its `q.shape[1]` access). -/
theorem C9_single_sample_promotion (e : Engine) (s : EngState) (emg : PyArr)
    (dtq dtd dte : DType) (qv qdv emgv : List ℚ) (mi : Option MuscleIndexSel) :
    (muscle_force_coefficients e s emg ⟨dtq, .one qv⟩ (some ⟨dtd, .one qdv⟩) mi =
      muscle_force_coefficients e s emg ⟨dtq, .two 1 (qv.map fun x => [x])⟩
        (some ⟨dtd, .two 1 (qdv.map fun x => [x])⟩) mi) ∧
    (muscle_force e s ⟨dte, .one emgv⟩ ⟨dtq, .one qv⟩ ⟨dtd, .one qdv⟩ mi =
      muscle_force e s ⟨dte, .two 1 (emgv.map fun x => [x])⟩
        ⟨dtq, .two 1 (qv.map fun x => [x])⟩ ⟨dtd, .two 1 (qdv.map fun x => [x])⟩ mi) ∧
    (muscles_kinematics e s ⟨dtq, .one qv⟩ none mi = (s, .error .indexError)) ∧
    (∀ s' flpe flce ofvce,
      muscle_force_coefficients e s emg ⟨dtq, .one qv⟩ (some ⟨dtd, .one qdv⟩) mi
        = (s', .ok (flpe, flce, ofvce)) →
      flpe.cols = 1 ∧ flce.cols = 1 ∧ ∀ g ∈ ofvce, g.cols = 1) ∧
    (∀ s' out,
      muscle_force e s ⟨dte, .one emgv⟩ ⟨dtq, .one qv⟩ ⟨dtd, .one qdv⟩ mi
        = (s', .ok out) → out.cols = 1) := by
  refine ⟨rfl, rfl, rfl, ?_, ?_⟩
  · intro s' flpe flce ofvce hrun
    simp only [muscle_force_coefficients] at hrun
    split at hrun
    · simp at hrun
    · simp only [NDArr.promoteIf, NDArr.shape1] at hrun
      split at hrun
      · simp at hrun
      next s'' flpe'' flce'' fvce'' hfold =>
        have hpres := foldlM_except_pres
          (fun x => (x.2.1.rows, x.2.1.cols, x.2.2.1.rows, x.2.2.1.cols,
            x.2.2.2.rows, x.2.2.2.cols))
          _ (fun _ _ _ hs => coefBodyI_dims hs) _ _ _ hfold
        simp only [Prod.mk.injEq, Except.ok.injEq] at hrun hpres
        obtain ⟨-, hflpe, hflce, hfvce⟩ := hrun
        subst hflpe hflce
        refine ⟨hpres.2.1, hpres.2.2.2.1, ?_⟩
        intro g hg
        rw [← hfvce] at hg
        cases hg
        exact hpres.2.2.2.2.2
  · intro s' out hrun
    simp only [muscle_force] at hrun
    split at hrun
    · simp at hrun
    · simp only [NDArr.promoteIf, NDArr.shape1] at hrun
      split at hrun
      · simp at hrun
      next s'' out'' hfold =>
        have hpres := foldlM_except_pres (fun x => (x.2.rows, x.2.cols))
          _ (fun _ _ _ hs => forceBodyI_dims hs) _ _ _ hfold
        simp only [Prod.mk.injEq, Except.ok.injEq] at hrun hpres
        obtain ⟨-, hout⟩ := hrun
        subst hout
        exact hpres.2

/-- C9 witness: on a concrete zero-muscle engine, the single-sample batch calls of the
promoted 1-D inputs succeed and the hypotheses of the one-column conclusions are
discharged by evaluation. -/
theorem C9_witness :
    ((mkGrid 0 1).cols = 1 ∧ (mkGrid 0 1).cols = 1 ∧
      ∀ g ∈ some (mkGrid 0 1), g.cols = 1) ∧ (mkGrid 0 1).cols = 1 :=
  ⟨(C9_single_sample_promotion zeroMuscleEngine s0 ⟨.ndarray, .one []⟩ .ndarray .ndarray
      .ndarray [5] [6] [] none).2.2.2.1
      (EngState.updateMuscles s0 [5] (some [6])) (mkGrid 0 1) (mkGrid 0 1)
      (some (mkGrid 0 1)) rfl,
   (C9_single_sample_promotion zeroMuscleEngine s0 ⟨.ndarray, .one []⟩ .ndarray .ndarray
      .ndarray [5] [6] [] none).2.2.2.2
      (EngState.updateMuscles s0 [5] (some [6])) (mkGrid 0 1) rfl⟩

/-- C3: for a nonempty strictly increasing time-sample vector and an initial state of
length 2·n_q with a well-typed, well-sized torque control, when the IVP solver returns
a solution matrix honouring the documented solve_ivp contract (one row per state entry,
one column per requested sample, initial state in the first column), `integrate`
returns exactly the row split of that matrix: pose rows `[0, n_q)` and velocity rows
`[n_q, 2·n_q)`, each with one column per time sample, and the first column equal to
the initial state. -/
theorem C3_integrate_trajectory (e : Engine) (solver : Solver) (s s₁ : EngState)
    (t : List ℚ) (states controls : PyVec) (y : Grid)
    (hne : t ≠ [])
    (hsorted : t.Chain' (· < ·))
    (hdt : controls.dtype = states.dtype)
    (hctrl : controls.data.length = e.n_q)
    (hstates : states.data.length = 2 * e.n_q)
    (hsol : solver (fdynTau e controls.data) (t.headD 0, t.getLastD 0) states.data
        "RK45" t s = .ok (s₁, y))
    (hrows : y.rows = states.data.length) (hcols : y.cols = t.length)
    (hfirst : ∀ r, r < y.rows → y.entry r 0 = states.data.getD r 0) :
    integrate e solver s t states controls .TORQUE .RK45
      = (s₁, .ok (rowTake e.n_q y, rowDrop e.n_q y)) ∧
    (rowTake e.n_q y).cols = t.length ∧ (rowDrop e.n_q y).cols = t.length ∧
    (rowTake e.n_q y).rows = e.n_q ∧ (rowDrop e.n_q y).rows = e.n_q ∧
    (∀ r, r < e.n_q → (rowTake e.n_q y).entry r 0 = states.data.getD r 0) ∧
    (∀ r, r < e.n_q → (rowDrop e.n_q y).entry r 0 = states.data.getD (e.n_q + r) 0) := by
  obtain ⟨a, t', rfl⟩ : ∃ a t', t = a :: t' := by
    cases t with
    | nil => exact absurd rfl hne
    | cons a t' => exact ⟨a, t', rfl⟩
  simp only [List.headD_cons, List.getLastD_cons] at hsol
  refine ⟨?_, ?_, ?_, ?_, ?_, ?_, ?_⟩
  · have h1 : (decide (controls.dtype ≠ states.dtype)) = false := by simp [hdt]
    simp only [integrate, h1, Bool.false_eq_true, if_false, hctrl, ne_eq,
      not_true_eq_false, ite_false, tspanOf, hsol]
  · simp [rowTake, hcols]
  · simp [rowDrop, hcols]
  · simp only [rowTake]
    omega
  · simp only [rowDrop]
    omega
  · intro r hr
    simp only [rowTake]
    exact hfirst r (by omega)
  · intro r hr
    simp only [rowDrop]
    exact hfirst (e.n_q + r) (by omega)

/-- C3 witness: a concrete two-sample integration on `toyEngine` with the trivial
contract-satisfying solver yields 1-row, 2-column pose and velocity trajectories whose
first column is the initial state. -/
theorem C3_witness :
    integrate toyEngine trivSolver s0 [0, 1] statesV ctrlV .TORQUE .RK45
      = (s0, .ok (rowTake 1 yW, rowDrop 1 yW)) ∧
    (rowTake 1 yW).cols = 2 ∧ (rowDrop 1 yW).cols = 2 ∧
    (rowTake 1 yW).rows = 1 ∧ (rowDrop 1 yW).rows = 1 ∧
    (∀ r, r < 1 → (rowTake 1 yW).entry r 0 = statesV.data.getD r 0) ∧
    (∀ r, r < 1 → (rowDrop 1 yW).entry r 0 = statesV.data.getD (1 + r) 0) :=
  C3_integrate_trajectory toyEngine trivSolver s0 s0 [0, 1] statesV ctrlV yW
    (by decide) (by norm_num [List.chain'_cons]) rfl rfl rfl rfl rfl rfl (fun _ _ => rfl)
